import Mathlib

/-!
Shallow embedding of the progress-tracking and navigation core of
`src/script.js` (classes `ProgressTracker` and `PageManager`, plus the
Konami-code handler).

Modelling conventions:
* A JS `Set` of strings is a `List String` in insertion order; `Set.has`
  is membership, `Set.add` appends when absent (the source always guards
  `add` with `has`, and `new Set(array)` deduplicates keeping the first
  occurrence).
* A JS `Map` is an association list `List (String × α)` in insertion
  order; `Map.set` on a present key updates the value in place, on an
  absent key appends.
* The values of `completedInteractions` and `collectibles` are dynamic
  in JS: live `Set`s while the session runs, but plain objects after a
  reload (because `JSON.stringify` of a `Set` produces an object with no
  enumerable own properties, and `JSON.parse` gives back a plain
  object).  `SetVal` is that dynamic type.
* Calling a `Set` method on a plain object throws a `TypeError`;
  fallible operations therefore return `Except Unit _`, with `.error ()`
  standing for an uncaught JS exception propagating to the caller.
* `localStorage` and `JSON.parse` are external: `loadProgress` takes the
  outcome of `localStorage.getItem` + `JSON.parse` as an input
  (`none` = no snapshot stored, `some (.error ())` = snapshot present
  but `JSON.parse` threw, `some (.ok doc)` = parsed document), and
  `saveToStorage` takes a flag saying whether `localStorage.setItem`
  succeeds.  Neither function in the source contains a `try`/`catch`.
* Wall-clock time (`new Date().toISOString()`) is passed as a `now :
  String` parameter.
* Mutators return, besides the new state, their JS return value and a
  `Bool` recording whether `saveProgress` was invoked on that call.
-/

namespace Birthday

/-- A persisted achievement record, `{id, title, description, icon, unlockedAt}`
(script.js lines 246-252). -/
structure AchievementRecord where
  id : String
  title : String
  description : String
  icon : String
  unlockedAt : String
deriving DecidableEq, Repr

/-- The dynamic type of a map entry value for `completedInteractions` /
`collectibles`: a live JS `Set` (its members, in insertion order) or a plain
object (its own enumerable property names) as produced by `JSON.parse`. -/
inductive SetVal where
  | set (members : List String)
  | plain (fields : List String)
deriving DecidableEq, Repr

/-- `Map.prototype.has` on an association list. -/
def mapHas (m : List (String × α)) (k : String) : Bool :=
  m.any (fun e => e.1 = k)

/-- `Map.prototype.get` on an association list (first matching key). -/
def mapGet (m : List (String × α)) (k : String) : Option α :=
  (m.find? (fun e => decide (e.1 = k))).map (·.2)

/-- `Map.prototype.set`: update in place when the key is present (keeping its
position), append otherwise. -/
def mapSet (m : List (String × α)) (k : String) (v : α) : List (String × α) :=
  if mapHas m k then m.map (fun e => if e.1 = k then (k, v) else e)
  else m ++ [(k, v)]

/-- `new Set(iterable)`: insert elements left to right, skipping duplicates
(first occurrence kept). -/
def jsSetOfList (l : List String) : List String :=
  l.foldl (fun s x => if x ∈ s then s else s ++ [x]) []

/-- In-memory state of class `ProgressTracker` (script.js lines 2-10). -/
structure ProgressTracker where
  visitedPages : List String
  completedInteractions : List (String × SetVal)
  unlockedSecrets : List String
  achievements : List (String × AchievementRecord)
  collectibles : List (String × SetVal)
deriving DecidableEq, Repr

/-- The constructor's field initializers: every container empty. -/
def emptyTracker : ProgressTracker :=
  { visitedPages := []
    completedInteractions := []
    unlockedSecrets := []
    achievements := []
    collectibles := [] }

/-- The plain-data document written to `localStorage` (script.js lines 25-32),
after `JSON.stringify`/`JSON.parse`: map-valued fields become key/value
records whose values are the serialized objects' own property names. -/
structure StoredProgress where
  visitedPages : List String
  completedInteractions : List (String × List String)
  unlockedSecrets : List String
  achievements : List AchievementRecord
  collectibles : List (String × List String)
  lastVisit : String
deriving DecidableEq, Repr

/-- What `JSON.stringify` keeps of a map entry value: a JS `Set` stores its
members in internal slots, not enumerable own properties, so it serializes as
the empty object; a plain object keeps its property names. -/
def SetVal.serialize : SetVal → List String
  | .set _ => []
  | .plain fs => fs

/-- `ProgressTracker.saveProgress` (lines 24-34): the document passed to
`JSON.stringify` and written under key `birthdayProgress`.  `now` is
`new Date().toISOString()`. -/
def saveProgress (t : ProgressTracker) (now : String) : StoredProgress :=
  { visitedPages := t.visitedPages
    completedInteractions := t.completedInteractions.map (fun e => (e.1, e.2.serialize))
    unlockedSecrets := t.unlockedSecrets
    achievements := t.achievements.map (·.2)
    collectibles := t.collectibles.map (fun e => (e.1, e.2.serialize))
    lastVisit := now }

/-- The body of the `if (stored)` branch of `ProgressTracker.loadProgress`
(lines 16-20): rebuild the containers from the parsed document. -/
def restoreProgress (p : StoredProgress) : ProgressTracker :=
  { visitedPages := jsSetOfList p.visitedPages
    completedInteractions := p.completedInteractions.map (fun e => (e.1, SetVal.plain e.2))
    unlockedSecrets := jsSetOfList p.unlockedSecrets
    achievements := p.achievements.foldl (fun m a => mapSet m a.id a) []
    collectibles := p.collectibles.map (fun e => (e.1, SetVal.plain e.2)) }

/-- `ProgressTracker.loadProgress` (lines 12-22) as run by the constructor.
The argument is the outcome of `localStorage.getItem` followed by
`JSON.parse`: `none` when no snapshot is stored (the constructor's empty
containers remain), `some (.error ())` when a snapshot is stored but
`JSON.parse` throws (the exception is not caught and propagates),
`some (.ok p)` when parsing succeeds. -/
def loadProgress (stored : Option (Except Unit StoredProgress)) :
    Except Unit ProgressTracker :=
  match stored with
  | none => .ok emptyTracker
  | some (.error e) => .error e
  | some (.ok p) => .ok (restoreProgress p)

/-- `saveProgress` including the `localStorage.setItem` write: `writeOk`
says whether the store accepts the write (e.g. quota not exceeded).  The
source wraps the call in no `try`/`catch`, so a failing write propagates. -/
def saveToStorage (writeOk : Bool) (t : ProgressTracker) (now : String) :
    Except Unit StoredProgress :=
  if writeOk then .ok (saveProgress t now) else .error ()

/-- `ProgressTracker.markPageVisited` (lines 36-43).  Returns the new state,
the JS return value (`true` on first visit), and whether `saveProgress` ran. -/
def markPageVisited (t : ProgressTracker) (pageId : String) :
    ProgressTracker × Bool × Bool :=
  if pageId ∈ t.visitedPages then (t, false, false)
  else ({ t with visitedPages := t.visitedPages ++ [pageId] }, true, true)

/-- `ProgressTracker.markInteractionComplete` (lines 45-57).  When the stored
value for `pageId` is a plain object (post-reload state), the call to
`pageInteractions.has` throws a `TypeError` (`.error ()`); at that point no
mutation has happened yet, because the ensure-key step only runs when the key
is absent. -/
def markInteractionComplete (t : ProgressTracker) (pageId interactionId : String) :
    Except Unit (ProgressTracker × Bool × Bool) :=
  match mapGet t.completedInteractions pageId with
  | none =>
      -- key absent: `set(pageId, new Set())`, then the new empty set cannot
      -- contain `interactionId`, so it is added and progress saved
      let m := mapSet (mapSet t.completedInteractions pageId (.set []))
                 pageId (.set [interactionId])
      .ok ({ t with completedInteractions := m }, true, true)
  | some (.set ms) =>
      if interactionId ∈ ms then .ok (t, false, false)
      else
        let m := mapSet t.completedInteractions pageId (.set (ms ++ [interactionId]))
        .ok ({ t with completedInteractions := m }, true, true)
  | some (.plain _) => .error ()

/-- `ProgressTracker.unlockSecret` (lines 59-66). -/
def unlockSecret (t : ProgressTracker) (secretId : String) :
    ProgressTracker × Bool × Bool :=
  if secretId ∈ t.unlockedSecrets then (t, false, false)
  else ({ t with unlockedSecrets := t.unlockedSecrets ++ [secretId] }, true, true)

/-- `ProgressTracker.addCollectible` (lines 68-80); same shape as
`markInteractionComplete` but on `collectibles`. -/
def addCollectible (t : ProgressTracker) (pageId collectibleId : String) :
    Except Unit (ProgressTracker × Bool × Bool) :=
  match mapGet t.collectibles pageId with
  | none =>
      let m := mapSet (mapSet t.collectibles pageId (.set []))
                 pageId (.set [collectibleId])
      .ok ({ t with collectibles := m }, true, true)
  | some (.set ms) =>
      if collectibleId ∈ ms then .ok (t, false, false)
      else
        let m := mapSet t.collectibles pageId (.set (ms ++ [collectibleId]))
        .ok ({ t with collectibles := m }, true, true)
  | some (.plain _) => .error ()

/-- The fixed set `validPages` of `getCompletionPercentage` (line 84). -/
def validPages : List String := ["gallery", "reasons", "wishes", "games"]

/-- `ProgressTracker.getCompletionPercentage` (lines 82-87):
`Math.round((visitedCount / 4) * 100)`.  Every value `(c / 4) * 100` taken
here is exact in floating point, and `Math.round x = ⌊x + 1/2⌋`, so the
result is `(c * 100 * 2 + 4) / (4 * 2)` in integer arithmetic. -/
def getCompletionPercentage (t : ProgressTracker) : Nat :=
  let visitedCount := (t.visitedPages.filter (fun p => p ∈ validPages)).length
  (visitedCount * 100 * 2 + 4) / (4 * 2)

/-- The `completionCriteria` table of `isPageCompleted` (lines 91-96). -/
def completionCriteria : List (String × Nat) :=
  [("gallery", 2), ("reasons", 3), ("wishes", 1), ("games", 1)]

/-- `ProgressTracker.isPageCompleted` (lines 89-101).
`completionCriteria[pageId] || 1` is the table lookup with default 1;
`pageInteractions && pageInteractions.size >= required` is false when the
key is absent (`undefined` is falsy) and also false when the value is a
plain object (its `.size` is `undefined`, and `undefined >= required` is
false). -/
def isPageCompleted (t : ProgressTracker) (pageId : String) : Bool :=
  let required := (mapGet completionCriteria pageId).getD 1
  match mapGet t.completedInteractions pageId with
  | none => false
  | some (.set ms) => ms.length ≥ required
  | some (.plain _) => false

/-- Display metadata `{title, description, icon}` from the static table of
`PageManager.getAchievementData` (lines 258-308). -/
structure AchievementMeta where
  title : String
  description : String
  icon : String
deriving DecidableEq, Repr

/-- The static achievement table of `getAchievementData` (lines 259-301). -/
def achievementTable : List (String × AchievementMeta) :=
  [("first-visit-gallery", ⟨"Memory Keeper", "Visited the photo gallery", "📸"⟩),
   ("first-visit-reasons", ⟨"Heart Warmer", "Discovered why you're amazing", "🌟"⟩),
   ("first-visit-wishes", ⟨"Wish Collector", "Read birthday wishes", "💕"⟩),
   ("first-visit-games", ⟨"Fun Seeker", "Started playing games", "🎮"⟩),
   ("surprise-message", ⟨"Secret Keeper", "Unlocked a secret message", "💌"⟩),
   ("surprise-photo", ⟨"Photo Detective", "Found the hidden photo", "📷"⟩),
   ("surprise-wish", ⟨"Wish Finder", "Discovered the special wish", "🌟"⟩),
   ("explorer", ⟨"Complete Explorer", "Visited all sections!", "🏆"⟩)]

/-- The generic fallback metadata of `getAchievementData` (lines 303-307). -/
def fallbackMeta : AchievementMeta :=
  ⟨"Achievement Unlocked", "You did something special!", "✨"⟩

/-- `PageManager.getAchievementData` (lines 258-308). -/
def getAchievementData (achievementId : String) : AchievementMeta :=
  (mapGet achievementTable achievementId).getD fallbackMeta

/-- In-memory state of class `PageManager` (lines 106-117), keeping the
fields the core logic reads and writes: `currentPage`, `pageHistory`, the
registered `pages` map (page id to title; the `element` field is always
`null` and presentation-only) and the owned `progressTracker`. -/
structure PageManager where
  currentPage : String
  pageHistory : List String
  pages : List (String × String)
  progressTracker : ProgressTracker
deriving DecidableEq, Repr

/-- `PageManager.initializePages` (lines 119-129): the six registered pages,
in registration order.  No other statement in script.js ever calls
`pages.set`, so this map is fixed for the life of the object. -/
def initialPages : List (String × String) :=
  [("landing", "Welcome"), ("menu", "Main Menu"), ("gallery", "Photo Gallery"),
   ("reasons", "Amazing You"), ("wishes", "Birthday Wishes"), ("games", "Play Together")]

/-- The `PageManager` constructor (lines 106-117), with the tracker state
(produced by `loadProgress`) passed in. -/
def initPageManager (t : ProgressTracker) : PageManager :=
  { currentPage := "landing", pageHistory := [], pages := initialPages,
    progressTracker := t }

/-- The body of `PageManager.unlockAchievement` (lines 243-256) acting on
the tracker it mutates (the method reads and writes only
`this.progressTracker`).  Besides the new tracker it returns the record
inserted (`some` exactly on the branch that persists and calls
`showAchievementNotification`; `none` when the id is already present — the
method body then does nothing) and whether `saveProgress` ran.  `now` is
`new Date().toISOString()`. -/
def trackerUnlockAchievement (t : ProgressTracker) (achievementId now : String) :
    ProgressTracker × Option AchievementRecord × Bool :=
  let d := getAchievementData achievementId
  if mapHas t.achievements achievementId then (t, none, false)
  else
    let r : AchievementRecord := ⟨achievementId, d.title, d.description, d.icon, now⟩
    ({ t with achievements := mapSet t.achievements achievementId r }, some r, true)

/-- `PageManager.unlockAchievement` (lines 243-256). -/
def unlockAchievement (pm : PageManager) (achievementId now : String) :
    PageManager × Option AchievementRecord × Bool :=
  let u := trackerUnlockAchievement pm.progressTracker achievementId now
  ({ pm with progressTracker := u.1 }, u.2.1, u.2.2)

/-- `PageManager.trackProgress` (lines 187-193); `updateMenuProgress` is
DOM-only and omitted.  Returns the achievement notification, if any. -/
def trackProgress (pm : PageManager) (pageId now : String) :
    PageManager × Option AchievementRecord :=
  let v := markPageVisited pm.progressTracker pageId
  let pm1 := { pm with progressTracker := v.1 }
  if v.2.1 && pageId ≠ "landing" && pageId ≠ "menu" then
    let u := unlockAchievement pm1 ("first-visit-" ++ pageId) now
    (u.1, u.2.1)
  else (pm1, none)

/-- Result of a `navigateTo` call: the new state; whether the invalid-page
branch ran (`console.error` at line 133 followed by an early return);
the `(fromPage, toPage, transitionType)` triple handed to
`executeTransition` on the valid branch; and the achievement notification
raised by `trackProgress`, if any. -/
structure NavResult where
  pm : PageManager
  errored : Bool
  transition : Option (String × String × String)
  notification : Option AchievementRecord
deriving DecidableEq, Repr

/-- `PageManager.navigateTo` (lines 131-152).  On the valid branch: push
`currentPage` onto `pageHistory` when it differs from the target, run the
transition, set `currentPage`, then `trackProgress` (`updateBackButton` is
DOM-only and omitted). -/
def navigateTo (pm : PageManager) (pageId transitionType now : String) : NavResult :=
  if ¬ (mapHas pm.pages pageId) then ⟨pm, true, none, none⟩
  else
    let fromPage := pm.currentPage
    let hist := if pm.currentPage ≠ pageId then pm.pageHistory ++ [pm.currentPage]
                else pm.pageHistory
    let pm1 := { pm with pageHistory := hist, currentPage := pageId }
    let tr := trackProgress pm1 pageId now
    ⟨tr.1, false, some (fromPage, pageId, transitionType), tr.2⟩

/-- `PageManager.goBack` (lines 154-159): when `pageHistory` is non-empty,
pop its last element and `navigateTo` it with transition type `slideBack`;
otherwise do nothing (the JS function returns `undefined` and emits no
transition either way — the `Option` component is the transition emitted,
`none` meaning no navigation happened). -/
def goBack (pm : PageManager) (now : String) :
    PageManager × Option (String × String × String) :=
  match pm.pageHistory.getLast? with
  | none => (pm, none)
  | some previousPage =>
      let r := navigateTo { pm with pageHistory := pm.pageHistory.dropLast }
                 previousPage "slideBack" now
      (r.pm, r.transition)

/-- The Konami-code success handler (lines 464-466 of `setupKonami`):
`pageManager.unlockAchievement('secret-explorer')` then
`pageManager.navigateTo('secret')` (with the default transition `slide`).
The wrappers installed around `navigateTo` at lines 691-706 and 2201-2209
call the original function first and then only schedule DOM work, so they
do not change this state semantics. -/
def konamiActivate (pm : PageManager) (now : String) : NavResult :=
  let u := unlockAchievement pm "secret-explorer" now
  navigateTo u.1 "secret" "slide" now

/-! ### Derived notions used to state the claims -/

/-- Number of entries of an association list carrying a given key. -/
def countKey (m : List (String × α)) (k : String) : Nat :=
  (m.filter (fun e => e.1 = k)).length

/-- The number of completed interactions recorded for a section: the size of
the recorded set, `0` when nothing is recorded for the section (and `0` for a
post-reload plain object, whose members are gone). -/
def countRecorded (t : ProgressTracker) (pageId : String) : Nat :=
  match mapGet t.completedInteractions pageId with
  | some (.set ms) => ms.length
  | _ => 0

/-- The per-section completion threshold `completionCriteria[pageId] || 1`. -/
def requiredFor (pageId : String) : Nat :=
  (mapGet completionCriteria pageId).getD 1

/-- One call into a mutation method of the progress core.  `achieve` carries
the timestamp `new Date().toISOString()` taken at the call. -/
inductive Mutation where
  | visit (pageId : String)
  | interact (pageId interactionId : String)
  | secret (secretId : String)
  | collect (pageId collectibleId : String)
  | achieve (achievementId now : String)
deriving DecidableEq, Repr

/-- The tracker state after one mutation call.  For the fallible calls a
thrown `TypeError` (`.error`) leaves the tracker as it was: the throw happens
before any mutation of the state. -/
def applyMutation (t : ProgressTracker) : Mutation → ProgressTracker
  | .visit p => (markPageVisited t p).1
  | .interact p i =>
      match markInteractionComplete t p i with
      | .ok r => r.1
      | .error _ => t
  | .secret s => (unlockSecret t s).1
  | .collect p c =>
      match addCollectible t p c with
      | .ok r => r.1
      | .error _ => t
  | .achieve a now => (trackerUnlockAchievement t a now).1

/-- The tracker state after a sequence of mutation calls. -/
def applySeq (t : ProgressTracker) (ms : List Mutation) : ProgressTracker :=
  ms.foldl applyMutation t

/-- Pointwise growth of a dynamic set value: a live set may only gain
members (keeping the old ones in place), a plain object stays as it is. -/
def SetVal.le : SetVal → SetVal → Prop
  | .set ms, .set ms' => List.Sublist ms ms'
  | .plain fs, .plain fs' => fs = fs'
  | _, _ => False

/-- Growth of a map whose values are dynamic sets: every present entry is
still present with a value that only grew. -/
def mapLeVal (m m' : List (String × SetVal)) : Prop :=
  ∀ k v, mapGet m k = some v → ∃ v', mapGet m' k = some v' ∧ SetVal.le v v'

/-- One-way progression between tracker states: every container keeps all
its members (visited pages, secrets and each recorded set only gain,
achievement records are never removed or altered) and no map shrinks. -/
def trackerLe (t t' : ProgressTracker) : Prop :=
  List.Sublist t.visitedPages t'.visitedPages ∧
  mapLeVal t.completedInteractions t'.completedInteractions ∧
  t.completedInteractions.length ≤ t'.completedInteractions.length ∧
  List.Sublist t.unlockedSecrets t'.unlockedSecrets ∧
  (∀ k r, mapGet t.achievements k = some r → mapGet t'.achievements k = some r) ∧
  t.achievements.length ≤ t'.achievements.length ∧
  mapLeVal t.collectibles t'.collectibles ∧
  t.collectibles.length ≤ t'.collectibles.length

/-! ### Concrete states used by the scenario claims -/

/-- Run `markInteractionComplete` for its state, keeping the old state on a
throw (used only on inputs where no throw happens). -/
def interactState (t : ProgressTracker) (pageId interactionId : String) : ProgressTracker :=
  match markInteractionComplete t pageId interactionId with
  | .ok r => r.1
  | .error _ => t

/-- A session state with a member in every container, built by the mutation
methods from a fresh tracker: one visited page, one interaction for
`reasons`, one secret, one collectible for `gallery`, one achievement. -/
def fullTracker : ProgressTracker :=
  applySeq emptyTracker
    [.visit "gallery", .interact "reasons" "r1", .secret "s1",
     .collect "gallery" "gem-1", .achieve "first-visit-gallery" "T0"]

/-- `fullTracker` as it comes back from a save/load round trip (snapshot
written at time `T1`, parsed successfully). -/
def reloadedTracker : ProgressTracker :=
  restoreProgress (saveProgress fullTracker "T1")

/-- A fresh `PageManager` over a fresh tracker (first visit, no snapshot). -/
def navScenario0 : PageManager := initPageManager emptyTracker

/-- After `navigateTo('gallery')` from the landing page. -/
def navScenario1 : NavResult := navigateTo navScenario0 "gallery" "slide" "t1"

/-- After `navigateTo('wishes')` next. -/
def navScenario2 : NavResult := navigateTo navScenario1.pm "wishes" "slide" "t2"

/-- After a first `goBack()`. -/
def backOnce : PageManager × Option (String × String × String) :=
  goBack navScenario2.pm "t3"

/-- After a second `goBack()`. -/
def backTwice : PageManager × Option (String × String × String) :=
  goBack backOnce.1 "t4"

/-- After a third `goBack()`. -/
def backThrice : PageManager × Option (String × String × String) :=
  goBack backTwice.1 "t5"

/-- One interaction recorded for `reasons`. -/
def reasonsA : ProgressTracker := interactState emptyTracker "reasons" "ra"

/-- Two distinct interactions recorded for `reasons`. -/
def reasonsAB : ProgressTracker := interactState reasonsA "reasons" "rb"

/-- Three distinct interactions recorded for `reasons`. -/
def reasonsABC : ProgressTracker := interactState reasonsAB "reasons" "rc"

/-- Re-recording the already-seen id `ra` after the three distinct ones. -/
def reasonsABCA : ProgressTracker := interactState reasonsABC "reasons" "ra"

/-! ### Lemmas about the association-list and set primitives -/

theorem mapGet_nil (k : String) : mapGet ([] : List (String × α)) k = none := rfl

theorem mapGet_cons (e : String × α) (m : List (String × α)) (k : String) :
    mapGet (e :: m) k = if e.1 = k then some e.2 else mapGet m k := by
  by_cases h : e.1 = k
  · simp [mapGet, List.find?_cons_of_pos, h]
  · simp [mapGet, List.find?_cons_of_neg, h]

theorem mapHas_cons (e : String × α) (m : List (String × α)) (k : String) :
    mapHas (e :: m) k = (decide (e.1 = k) || mapHas m k) := by
  simp [mapHas]

theorem mapHas_eq_isSome (m : List (String × α)) (k : String) :
    mapHas m k = (mapGet m k).isSome := by
  induction m with
  | nil => rfl
  | cons e m ih =>
      by_cases h : e.1 = k <;> simp [mapHas_cons, mapGet_cons, h, ih]

theorem mapGet_eq_none_of_not_has (m : List (String × α)) (k : String)
    (h : mapHas m k = false) : mapGet m k = none := by
  have := mapHas_eq_isSome m k
  rw [h] at this
  exact Option.not_isSome_iff_eq_none.mp (by simp [← this])

theorem mapGet_append (m l : List (String × α)) (k : String) :
    mapGet (m ++ l) k = ((mapGet m k).or (mapGet l k)) := by
  rcases h : mapGet m k with _ | v
  · simp only [mapGet, List.find?_append]
    simp only [mapGet] at h
    rcases h2 : List.find? (fun e => decide (e.1 = k)) m with _ | w
    · simp [h2]
    · simp [h2] at h
  · simp only [mapGet, List.find?_append]
    simp only [mapGet] at h
    rcases h2 : List.find? (fun e => decide (e.1 = k)) m with _ | w
    · simp [h2] at h
    · simp [h2]
      simp [h2] at h
      exact h

theorem mapGet_replace_self (m : List (String × α)) (k : String) (v : α)
    (hh : mapHas m k = true) :
    mapGet (m.map (fun e => if e.1 = k then (k, v) else e)) k = some v := by
  induction m with
  | nil => simp [mapHas] at hh
  | cons e m ih =>
      by_cases h : e.1 = k
      · simp [mapGet_cons, h]
      · have hh' : mapHas m k = true := by
          simpa [mapHas_cons, h] using hh
        simpa [mapGet_cons, h] using ih hh'

theorem mapGet_replace_ne (m : List (String × α)) (k k' : String) (v : α)
    (h : k' ≠ k) :
    mapGet (m.map (fun e => if e.1 = k then (k, v) else e)) k' = mapGet m k' := by
  induction m with
  | nil => rfl
  | cons e m ih =>
      by_cases he : e.1 = k
      · have : k ≠ k' := fun hk => h hk.symm
        simp [mapGet_cons, he, this, Ne.symm h, ih]
      · by_cases he' : e.1 = k'
        · simp [mapGet_cons, he, he', h]
        · simp [mapGet_cons, he, he', ih]

theorem mapGet_mapSet_self (m : List (String × α)) (k : String) (v : α) :
    mapGet (mapSet m k v) k = some v := by
  unfold mapSet
  split
  · exact mapGet_replace_self m k v (by assumption)
  · rename_i hh
    have h0 : mapGet m k = none :=
      mapGet_eq_none_of_not_has m k (by simpa using hh)
    simp [mapGet_append, h0, mapGet_cons]

theorem mapGet_mapSet_ne (m : List (String × α)) (k k' : String) (v : α)
    (h : k' ≠ k) :
    mapGet (mapSet m k v) k' = mapGet m k' := by
  unfold mapSet
  split
  · exact mapGet_replace_ne m k k' v h
  · rcases h0 : mapGet m k' with _ | w
    · simp [mapGet_append, h0, mapGet_cons, h, Ne.symm h, mapGet_nil]
    · simp [mapGet_append, h0]

theorem length_mapSet (m : List (String × α)) (k : String) (v : α) :
    (mapSet m k v).length = if mapHas m k then m.length else m.length + 1 := by
  unfold mapSet
  split <;> simp_all

theorem mapHas_mapSet_self (m : List (String × α)) (k : String) (v : α) :
    mapHas (mapSet m k v) k = true := by
  rw [mapHas_eq_isSome, mapGet_mapSet_self]
  rfl

theorem countKey_append (m l : List (String × α)) (k : String) :
    countKey (m ++ l) k = countKey m k + countKey l k := by
  simp [countKey, List.filter_append]

theorem countKey_eq_zero (m : List (String × α)) (k : String)
    (h : mapHas m k = false) : countKey m k = 0 := by
  simp only [mapHas, List.any_eq_false, decide_eq_true_eq] at h
  simp only [countKey, List.length_eq_zero, List.filter_eq_nil_iff]
  intro e he
  simpa using h e he

theorem countKey_singleton (k : String) (v : α) :
    countKey [(k, v)] k = 1 := by
  simp [countKey]

/-! ### The one-way-progression order and its properties -/

theorem SetVal.le_refl (v : SetVal) : SetVal.le v v := by
  cases v with
  | set ms => exact List.Sublist.refl ms
  | plain fs => rfl

theorem SetVal.le_trans {a b c : SetVal} (h1 : SetVal.le a b) (h2 : SetVal.le b c) :
    SetVal.le a c := by
  cases a <;> cases b <;> cases c <;> simp_all [SetVal.le]
  exact List.Sublist.trans h1 h2

theorem mapLeVal_refl (m : List (String × SetVal)) : mapLeVal m m :=
  fun _ v h => ⟨v, h, SetVal.le_refl v⟩

theorem mapLeVal_trans {a b c : List (String × SetVal)}
    (h1 : mapLeVal a b) (h2 : mapLeVal b c) : mapLeVal a c := by
  intro k v h
  obtain ⟨v', hb, l1⟩ := h1 k v h
  obtain ⟨v'', hc, l2⟩ := h2 k v' hb
  exact ⟨v'', hc, SetVal.le_trans l1 l2⟩

theorem trackerLe_refl (t : ProgressTracker) : trackerLe t t :=
  ⟨List.Sublist.refl _, mapLeVal_refl _, le_rfl, List.Sublist.refl _,
   fun _ _ h => h, le_rfl, mapLeVal_refl _, le_rfl⟩

theorem trackerLe_trans {a b c : ProgressTracker}
    (h1 : trackerLe a b) (h2 : trackerLe b c) : trackerLe a c := by
  obtain ⟨v1, i1, il1, s1, a1, al1, c1, cl1⟩ := h1
  obtain ⟨v2, i2, il2, s2, a2, al2, c2, cl2⟩ := h2
  exact ⟨v1.trans v2, mapLeVal_trans i1 i2, il1.trans il2, s1.trans s2,
         fun k r h => a2 k r (a1 k r h), al1.trans al2,
         mapLeVal_trans c1 c2, cl1.trans cl2⟩

/-- Growth of a set-valued map under the add-to-existing-set update. -/
theorem mapLeVal_update (m : List (String × SetVal)) (p i : String)
    (ms : List String) (h : mapGet m p = some (.set ms)) :
    mapLeVal m (mapSet m p (.set (ms ++ [i]))) := by
  intro k v hk
  by_cases hkp : k = p
  · subst hkp
    rw [h] at hk
    cases hk
    exact ⟨.set (ms ++ [i]), mapGet_mapSet_self m k _,
           List.sublist_append_left ms [i]⟩
  · exact ⟨v, by rw [mapGet_mapSet_ne m p k _ hkp]; exact hk, SetVal.le_refl v⟩

/-- Growth of a set-valued map under the fresh-key insertion
`set(p, new Set())` followed by adding the first member. -/
theorem mapLeVal_insert (m : List (String × SetVal)) (p i : String)
    (h : mapGet m p = none) :
    mapLeVal m (mapSet (mapSet m p (.set [])) p (.set [i])) := by
  intro k v hk
  have hkp : k ≠ p := by
    intro hkp
    rw [hkp, h] at hk
    cases hk
  refine ⟨v, ?_, SetVal.le_refl v⟩
  rw [mapGet_mapSet_ne _ p k _ hkp, mapGet_mapSet_ne _ p k _ hkp]
  exact hk

theorem length_mapSet_ge (m : List (String × α)) (k : String) (v : α) :
    m.length ≤ (mapSet m k v).length := by
  rw [length_mapSet]
  split <;> omega

/-- Every single mutation call only grows the tracker. -/
theorem trackerLe_applyMutation (t : ProgressTracker) (m : Mutation) :
    trackerLe t (applyMutation t m) := by
  cases m with
  | visit p =>
      show trackerLe t (markPageVisited t p).1
      unfold markPageVisited
      split
      · exact trackerLe_refl t
      · exact ⟨List.sublist_append_left _ _, mapLeVal_refl _, le_rfl,
               List.Sublist.refl _, fun _ _ h => h, le_rfl, mapLeVal_refl _, le_rfl⟩
  | interact p i =>
      show trackerLe t (applyMutation t (.interact p i))
      unfold applyMutation markInteractionComplete
      rcases h : mapGet t.completedInteractions p with _ | v
      · simp only [h]
        refine ⟨List.Sublist.refl _, mapLeVal_insert _ p i h, ?_,
                List.Sublist.refl _, fun _ _ hh => hh, le_rfl, mapLeVal_refl _, le_rfl⟩
        exact (length_mapSet_ge _ p _).trans (length_mapSet_ge _ p _)
      · cases v with
        | set ms =>
            by_cases hmem : i ∈ ms
            · simp only [h, if_pos hmem]
              exact trackerLe_refl t
            · simp only [h, if_neg hmem]
              refine ⟨List.Sublist.refl _, mapLeVal_update _ p i ms h, ?_,
                      List.Sublist.refl _, fun _ _ hh => hh, le_rfl,
                      mapLeVal_refl _, le_rfl⟩
              exact length_mapSet_ge _ p _
        | plain fs =>
            simp only [h]
            exact trackerLe_refl t
  | secret s =>
      show trackerLe t (unlockSecret t s).1
      unfold unlockSecret
      split
      · exact trackerLe_refl t
      · exact ⟨List.Sublist.refl _, mapLeVal_refl _, le_rfl,
               List.sublist_append_left _ _, fun _ _ h => h, le_rfl,
               mapLeVal_refl _, le_rfl⟩
  | collect p c =>
      show trackerLe t (applyMutation t (.collect p c))
      unfold applyMutation addCollectible
      rcases h : mapGet t.collectibles p with _ | v
      · simp only [h]
        refine ⟨List.Sublist.refl _, mapLeVal_refl _, le_rfl,
                List.Sublist.refl _, fun _ _ hh => hh, le_rfl,
                mapLeVal_insert _ p c h, ?_⟩
        exact (length_mapSet_ge _ p _).trans (length_mapSet_ge _ p _)
      · cases v with
        | set ms =>
            by_cases hmem : c ∈ ms
            · simp only [h, if_pos hmem]
              exact trackerLe_refl t
            · simp only [h, if_neg hmem]
              refine ⟨List.Sublist.refl _, mapLeVal_refl _, le_rfl,
                      List.Sublist.refl _, fun _ _ hh => hh, le_rfl,
                      mapLeVal_update _ p c ms h, ?_⟩
              exact length_mapSet_ge _ p _
        | plain fs =>
            simp only [h]
            exact trackerLe_refl t
  | achieve a now =>
      show trackerLe t (trackerUnlockAchievement t a now).1
      unfold trackerUnlockAchievement
      split
      · exact trackerLe_refl t
      · rename_i hh
        have h0 : mapGet t.achievements a = none :=
          mapGet_eq_none_of_not_has _ a (by simpa using hh)
        refine ⟨List.Sublist.refl _, mapLeVal_refl _, le_rfl,
                List.Sublist.refl _, ?_, length_mapSet_ge _ a _,
                mapLeVal_refl _, le_rfl⟩
        intro k r h
        have hka : k ≠ a := by
          intro hka
          rw [hka, h0] at h
          cases h
        rw [mapGet_mapSet_ne _ a k _ hka]
        exact h

/-- A whole sequence of mutation calls only grows the tracker. -/
theorem trackerLe_applySeq (ms : List Mutation) (t : ProgressTracker) :
    trackerLe t (applySeq t ms) := by
  induction ms generalizing t with
  | nil => exact trackerLe_refl t
  | cons m ms ih =>
      exact trackerLe_trans (trackerLe_applyMutation t m) (ih (applyMutation t m))

/-! ### Lemmas about the navigation controller -/

theorem trackProgress_currentPage (pm : PageManager) (p now : String) :
    (trackProgress pm p now).1.currentPage = pm.currentPage := by
  simp only [trackProgress]
  split <;> rfl

theorem trackProgress_pageHistory (pm : PageManager) (p now : String) :
    (trackProgress pm p now).1.pageHistory = pm.pageHistory := by
  simp only [trackProgress]
  split <;> rfl

theorem trackProgress_pages (pm : PageManager) (p now : String) :
    (trackProgress pm p now).1.pages = pm.pages := by
  simp only [trackProgress]
  split <;> rfl

theorem navigateTo_unregistered (pm : PageManager) (p tt now : String)
    (h : mapHas pm.pages p = false) :
    navigateTo pm p tt now = ⟨pm, true, none, none⟩ := by
  unfold navigateTo
  simp [h]

theorem navigateTo_registered (pm : PageManager) (p tt now : String)
    (h : mapHas pm.pages p = true) :
    (navigateTo pm p tt now).errored = false ∧
    (navigateTo pm p tt now).transition = some (pm.currentPage, p, tt) ∧
    (navigateTo pm p tt now).pm.currentPage = p ∧
    (navigateTo pm p tt now).pm.pages = pm.pages ∧
    (navigateTo pm p tt now).pm.pageHistory =
      (if pm.currentPage ≠ p then pm.pageHistory ++ [pm.currentPage]
       else pm.pageHistory) := by
  unfold navigateTo
  simp only [h, Bool.not_true, Bool.false_eq_true, if_false, not_false_eq_true]
  exact ⟨rfl, rfl, trackProgress_currentPage _ p now, trackProgress_pages _ p now,
         trackProgress_pageHistory _ p now⟩

theorem goBack_empty (pm : PageManager) (now : String) (h : pm.pageHistory = []) :
    goBack pm now = (pm, none) := by
  unfold goBack
  rw [h]
  rfl

theorem goBack_pop (pm : PageManager) (p now : String)
    (h : pm.pageHistory.getLast? = some p) :
    goBack pm now =
      ((navigateTo { pm with pageHistory := pm.pageHistory.dropLast } p
          "slideBack" now).pm,
       (navigateTo { pm with pageHistory := pm.pageHistory.dropLast } p
          "slideBack" now).transition) := by
  unfold goBack
  rw [h]

theorem mapHas_unlock (t : ProgressTracker) (a now : String) :
    mapHas (trackerUnlockAchievement t a now).1.achievements a = true := by
  unfold trackerUnlockAchievement
  split
  · assumption
  · exact mapHas_mapSet_self _ a _

/-! ### The claims -/

/-- C9: for every section id not registered in `pages`, `navigateTo` signals
an error (the `console.error` branch) and takes no action: the whole
`PageManager` state — `currentPage`, `pageHistory` and the tracker (so no
visit is recorded and no achievement triggered) — is returned unchanged,
with no transition and no notification. -/
theorem claim_C9_invalid_navigation (pm : PageManager)
    (pageId transitionType now : String) (h : mapHas pm.pages pageId = false) :
    navigateTo pm pageId transitionType now = ⟨pm, true, none, none⟩ :=
  navigateTo_unregistered pm pageId transitionType now h

/-- Witness for C9 at a concrete input: navigating a fresh manager to
`nonexistent-section` errors and changes nothing. -/
theorem claim_C9_invalid_navigation_witness :
    navigateTo (initPageManager emptyTracker) "nonexistent-section" "slide" "t0" =
      ⟨initPageManager emptyTracker, true, none, none⟩ :=
  claim_C9_invalid_navigation (initPageManager emptyTracker)
    "nonexistent-section" "slide" "t0" (by decide)

/-- C10: the registered sections are fixed at construction to exactly
landing, menu, gallery, reasons, wishes and games; `secret` and
`achievements` are never registered, so every `navigateTo('secret')` or
`navigateTo('achievements')` takes the unregistered-section error branch
and never changes `currentPage` or `pageHistory`; the Konami handler still
unlocks the `secret-explorer` achievement first and then hits that same
error branch. -/
theorem claim_C10_secret_achievements_unregistered :
    initialPages.map Prod.fst =
      ["landing", "menu", "gallery", "reasons", "wishes", "games"] ∧
    (initPageManager emptyTracker).pages = initialPages ∧
    mapHas initialPages "secret" = false ∧
    mapHas initialPages "achievements" = false ∧
    (∀ (pm : PageManager) (tt now : String), pm.pages = initialPages →
       navigateTo pm "secret" tt now = ⟨pm, true, none, none⟩ ∧
       navigateTo pm "achievements" tt now = ⟨pm, true, none, none⟩) ∧
    (∀ (pm : PageManager) (now : String), pm.pages = initialPages →
       (konamiActivate pm now).errored = true ∧
       (konamiActivate pm now).pm.currentPage = pm.currentPage ∧
       (konamiActivate pm now).pm.pageHistory = pm.pageHistory ∧
       mapHas (konamiActivate pm now).pm.progressTracker.achievements
         "secret-explorer" = true) := by
  refine ⟨by decide, rfl, by decide, by decide, ?_, ?_⟩
  · intro pm tt now hp
    constructor <;> exact navigateTo_unregistered pm _ tt now (by rw [hp]; decide)
  · intro pm now hp
    have hu : (unlockAchievement pm "secret-explorer" now).1.pages = pm.pages := rfl
    have hsec : mapHas (unlockAchievement pm "secret-explorer" now).1.pages
        "secret" = false := by rw [hu, hp]; decide
    have hk : konamiActivate pm now =
        ⟨(unlockAchievement pm "secret-explorer" now).1, true, none, none⟩ :=
      navigateTo_unregistered _ "secret" "slide" now hsec
    rw [hk]
    exact ⟨rfl, rfl, rfl,
           mapHas_unlock pm.progressTracker "secret-explorer" now⟩

/-- Witness for C10 at a concrete input: from a fresh manager,
`navigateTo('secret')` and `navigateTo('achievements')` error without
touching state, and the Konami handler records only `secret-explorer`. -/
theorem claim_C10_secret_achievements_unregistered_witness :
    navigateTo (initPageManager emptyTracker) "secret" "slide" "t0" =
      ⟨initPageManager emptyTracker, true, none, none⟩ ∧
    navigateTo (initPageManager emptyTracker) "achievements" "slide" "t0" =
      ⟨initPageManager emptyTracker, true, none, none⟩ ∧
    (konamiActivate (initPageManager emptyTracker) "t0").errored = true ∧
    (konamiActivate (initPageManager emptyTracker) "t0").pm.currentPage =
      "landing" ∧
    mapHas (konamiActivate (initPageManager emptyTracker)
      "t0").pm.progressTracker.achievements "secret-explorer" = true := by
  have h5 := (claim_C10_secret_achievements_unregistered.2.2.2.2.1
    (initPageManager emptyTracker) "slide" "t0" rfl)
  have h6 := (claim_C10_secret_achievements_unregistered.2.2.2.2.2
    (initPageManager emptyTracker) "t0" rfl)
  exact ⟨h5.1, h5.2, h6.1, h6.2.1, h6.2.2.2⟩

/-- C1 counterexample: the claimed scenario fails on the code.  Starting at
landing, after `navigateTo('gallery')` then `navigateTo('wishes')`, the
first `goBack()` does reach gallery, but the second `goBack()` lands on
`wishes` again — not `landing` — because `navigateTo` pushed the departed
section (`wishes`) onto the history during the first back step; the third
`goBack()` is likewise not a no-op and returns a transition instead of
null. -/
theorem claim_C1_counterexample :
    navScenario2.pm.currentPage = "wishes" ∧
    navScenario2.pm.pageHistory = ["landing", "gallery"] ∧
    backOnce.1.currentPage = "gallery" ∧
    backOnce.1.pageHistory = ["landing", "wishes"] ∧
    backTwice.1.currentPage = "wishes" ∧
    backTwice.1.currentPage ≠ "landing" ∧
    backTwice.1.pageHistory = ["landing", "gallery"] ∧
    backThrice.2 = some ("wishes", "gallery", "slideBack") ∧
    backThrice.2 ≠ none ∧
    backThrice.1.currentPage ≠ backTwice.1.currentPage := by
  refine ⟨rfl, rfl, rfl, rfl, rfl, by decide, rfl, rfl, by decide, by decide⟩

/-- C1 as amended: from landing via gallery to wishes, the first `goBack()`
returns the visitor to gallery with a back (`slideBack`) transition, but —
since `navigateTo` pushes the departed section onto the history even
during a back navigation — the second `goBack()` returns to wishes, not
landing.  In general `goBack()` pops the most recent history entry and
calls `navigateTo` on it with the back transition kind, emits a back
transition whenever the history is non-empty (the popped entry being a
registered section), and is a no-op emitting nothing exactly when the
history is empty. -/
theorem claim_C1_amended (pm : PageManager) (p now : String) :
    backOnce.1.currentPage = "gallery" ∧
    backOnce.2 = some ("wishes", "gallery", "slideBack") ∧
    backTwice.1.currentPage = "wishes" ∧
    backTwice.2 = some ("gallery", "wishes", "slideBack") ∧
    (pm.pageHistory = [] → goBack pm now = (pm, none)) ∧
    (pm.pageHistory.getLast? = some p →
       goBack pm now =
         ((navigateTo { pm with pageHistory := pm.pageHistory.dropLast } p
             "slideBack" now).pm,
          (navigateTo { pm with pageHistory := pm.pageHistory.dropLast } p
             "slideBack" now).transition)) ∧
    (pm.pageHistory.getLast? = some p → mapHas pm.pages p = true →
       (goBack pm now).2 = some (pm.currentPage, p, "slideBack")) := by
  refine ⟨rfl, rfl, rfl, rfl, goBack_empty pm now, goBack_pop pm p now, ?_⟩
  intro hlast hreg
  rw [goBack_pop pm p now hlast]
  exact (navigateTo_registered { pm with pageHistory := pm.pageHistory.dropLast }
    p "slideBack" now hreg).2.1

/-- Witness for the amended C1 at concrete inputs: `goBack` on a fresh
manager (empty history) is a no-op returning nothing, and `goBack` from
the gallery-then-wishes state emits the back transition to gallery. -/
theorem claim_C1_amended_witness :
    goBack navScenario0 "t9" = (navScenario0, none) ∧
    (goBack navScenario2.pm "t3").2 = some ("wishes", "gallery", "slideBack") := by
  refine ⟨(claim_C1_amended navScenario0 "gallery" "t9").2.2.2.2.1 rfl, ?_⟩
  exact (claim_C1_amended navScenario2.pm "gallery" "t3").2.2.2.2.2.2
    (by decide) (by decide)

theorem mapSet_eq_append (m : List (String × α)) (k : String) (v : α)
    (h : mapHas m k = false) : mapSet m k v = m ++ [(k, v)] := by
  unfold mapSet
  simp [h]

theorem unlockAchievement_already (pm : PageManager) (a now : String)
    (h : mapHas pm.progressTracker.achievements a = true) :
    unlockAchievement pm a now = (pm, none, false) := by
  unfold unlockAchievement trackerUnlockAchievement
  simp [h]

/-- C4: `unlockAchievement` is idempotent with a notification-signalling
result.  When the id is not yet present, the call inserts exactly one
record stamped with the current time and built from the looked-up metadata
(with the generic fallback for unknown ids), persists, and returns the new
record; a later call with the same id returns `none`, does not persist and
leaves the whole state — in particular the existing record — unaltered, so
`achievements` holds exactly one entry for the id. -/
theorem claim_C4_unlock_idempotent (pm : PageManager) (id now now2 : String) :
    (mapHas pm.progressTracker.achievements id = false →
       (unlockAchievement pm id now).2.1 =
         some ⟨id, (getAchievementData id).title, (getAchievementData id).description,
               (getAchievementData id).icon, now⟩ ∧
       (unlockAchievement pm id now).2.2 = true ∧
       mapGet (unlockAchievement pm id now).1.progressTracker.achievements id =
         some ⟨id, (getAchievementData id).title, (getAchievementData id).description,
               (getAchievementData id).icon, now⟩ ∧
       countKey (unlockAchievement pm id now).1.progressTracker.achievements id = 1 ∧
       unlockAchievement (unlockAchievement pm id now).1 id now2 =
         ((unlockAchievement pm id now).1, none, false)) ∧
    (mapHas pm.progressTracker.achievements id = true →
       unlockAchievement pm id now = (pm, none, false)) ∧
    (mapGet achievementTable id = none → getAchievementData id = fallbackMeta) := by
  refine ⟨?_, ?_, ?_⟩
  · intro h
    have hset : (unlockAchievement pm id now).1.progressTracker.achievements =
        mapSet pm.progressTracker.achievements id
          ⟨id, (getAchievementData id).title, (getAchievementData id).description,
           (getAchievementData id).icon, now⟩ := by
      unfold unlockAchievement trackerUnlockAchievement
      simp [h]
    refine ⟨?_, ?_, ?_, ?_, ?_⟩
    · unfold unlockAchievement trackerUnlockAchievement
      simp [h]
    · unfold unlockAchievement trackerUnlockAchievement
      simp [h]
    · rw [hset]
      exact mapGet_mapSet_self _ id _
    · rw [hset, mapSet_eq_append _ id _ h, countKey_append,
          countKey_eq_zero _ id h, countKey_singleton]
    · have h2 : mapHas (unlockAchievement pm id now).1.progressTracker.achievements
          id = true := by
        rw [hset]
        exact mapHas_mapSet_self _ id _
      exact unlockAchievement_already _ id now2 h2
  · intro h
    exact unlockAchievement_already pm id now h
  · intro h
    unfold getAchievementData
    simp [h]

/-- Witness for C4 at a concrete input: unlocking `candle-blower` (an id
absent from the static table) on a fresh manager returns the generic
fallback record once, persists, and the second call is a silent no-op. -/
theorem claim_C4_unlock_idempotent_witness :
    (unlockAchievement (initPageManager emptyTracker) "candle-blower" "t1").2.1 =
      some ⟨"candle-blower", "Achievement Unlocked", "You did something special!",
            "✨", "t1"⟩ ∧
    countKey (unlockAchievement (initPageManager emptyTracker) "candle-blower"
      "t1").1.progressTracker.achievements "candle-blower" = 1 ∧
    unlockAchievement (unlockAchievement (initPageManager emptyTracker)
        "candle-blower" "t1").1 "candle-blower" "t2" =
      ((unlockAchievement (initPageManager emptyTracker) "candle-blower" "t1").1,
       none, false) ∧
    getAchievementData "candle-blower" = fallbackMeta := by
  have h := claim_C4_unlock_idempotent (initPageManager emptyTracker)
    "candle-blower" "t1" "t2"
  have h1 := h.1 (by decide)
  exact ⟨h1.1, h1.2.2.2.1, h1.2.2.2.2, h.2.2 (by decide)⟩

/-- C5 counterexample: the claim quantifies over every prior state, but
from a state that has already visited `gallery` the first of the two calls
returns `false`, not `true`. -/
theorem claim_C5_counterexample :
    (markPageVisited { emptyTracker with visitedPages := ["gallery"] }
      "gallery").2.1 = false ∧
    (markPageVisited { emptyTracker with visitedPages := ["gallery"] }
      "gallery").2.1 ≠ true := by
  exact ⟨rfl, by decide⟩

/-- C5 as amended: `markPageVisited` is idempotent and reports first
visits.  When `x` is not yet visited the call returns `true` and persists,
appending `x`; when `x` is already visited the call is a pure no-op
returning `false` with no persist; the second of two consecutive calls
always returns `false` without persisting or changing state; and
afterwards (from any duplicate-free prior state) `visitedSections`
contains `x` exactly once. -/
theorem claim_C5_amended (t : ProgressTracker) (x : String) :
    (x ∉ t.visitedPages →
       (markPageVisited t x).2.1 = true ∧
       (markPageVisited t x).2.2 = true ∧
       (markPageVisited t x).1.visitedPages = t.visitedPages ++ [x]) ∧
    (x ∈ t.visitedPages → markPageVisited t x = (t, false, false)) ∧
    markPageVisited (markPageVisited t x).1 x =
      ((markPageVisited t x).1, false, false) ∧
    (t.visitedPages.count x ≤ 1 →
       (markPageVisited t x).1.visitedPages.count x = 1) := by
  refine ⟨?_, ?_, ?_, ?_⟩
  · intro h
    unfold markPageVisited
    simp [h]
  · intro h
    unfold markPageVisited
    simp [h]
  · by_cases h : x ∈ t.visitedPages
    · have h1 : (markPageVisited t x).1 = t := by
        unfold markPageVisited
        simp [h]
      rw [h1]
      unfold markPageVisited
      simp [h]
    · have h1 : (markPageVisited t x).1.visitedPages = t.visitedPages ++ [x] := by
        unfold markPageVisited
        simp [h]
      have h2 : x ∈ (markPageVisited t x).1.visitedPages := by
        rw [h1]
        simp
      unfold markPageVisited
      simp [h2, h]
  · intro hc
    by_cases h : x ∈ t.visitedPages
    · have h1 : (markPageVisited t x).1 = t := by
        unfold markPageVisited
        simp [h]
      rw [h1]
      have : t.visitedPages.count x ≠ 0 := by
        simpa [List.count_eq_zero] using h
      omega
    · have h1 : (markPageVisited t x).1.visitedPages = t.visitedPages ++ [x] := by
        unfold markPageVisited
        simp [h]
      rw [h1, List.count_append]
      have h0 : t.visitedPages.count x = 0 := List.count_eq_zero.mpr h
      simp [h0]

/-- Witness for the amended C5 at concrete inputs: from a fresh tracker the
two calls on `gallery` return `true` then `false` and leave one copy; from
a state already containing `gallery` the call is a no-op. -/
theorem claim_C5_amended_witness :
    (markPageVisited emptyTracker "gallery").2.1 = true ∧
    markPageVisited { emptyTracker with visitedPages := ["gallery"] } "gallery" =
      ({ emptyTracker with visitedPages := ["gallery"] }, false, false) ∧
    (markPageVisited emptyTracker "gallery").1.visitedPages.count "gallery" = 1 := by
  refine ⟨((claim_C5_amended emptyTracker "gallery").1 (by decide)).1,
          (claim_C5_amended { emptyTracker with visitedPages := ["gallery"] }
            "gallery").2.1 (by decide),
          (claim_C5_amended emptyTracker "gallery").2.2.2 (by decide)⟩

theorem filter_valid_length_le (t : ProgressTracker) (h : t.visitedPages.Nodup) :
    (t.visitedPages.filter (fun p => p ∈ validPages)).length ≤ 4 := by
  classical
  have hnd : (t.visitedPages.filter (fun p => p ∈ validPages)).Nodup :=
    h.filter _
  have hcard : (t.visitedPages.filter (fun p => p ∈ validPages)).toFinset.card =
      (t.visitedPages.filter (fun p => p ∈ validPages)).length :=
    List.toFinset_card_of_nodup hnd
  have hsub : (t.visitedPages.filter (fun p => p ∈ validPages)).toFinset ⊆
      validPages.toFinset := by
    intro x hx
    rw [List.mem_toFinset] at hx ⊢
    exact of_decide_eq_true (List.mem_filter.mp hx).2
  have h4 : validPages.toFinset.card = 4 := by decide
  have := Finset.card_le_card hsub
  omega

/-- C6: `getCompletionPercentage` is pure and equals
`round(100 * count / 4)` where `count` is the number of visited sections
among gallery, reasons, wishes, games; on a duplicate-free state it is
`25 * count`, an integer between 0 and 100.  Visiting exactly gallery and
wishes yields 50, all four primary sections yield 100, and landing plus
menu alone yield 0. -/
theorem claim_C6_completion_percentage (t : ProgressTracker)
    (h : t.visitedPages.Nodup) :
    getCompletionPercentage t =
      25 * (t.visitedPages.filter (fun p => p ∈ validPages)).length ∧
    ((getCompletionPercentage t : ℤ) =
      round ((100 *
        ((t.visitedPages.filter (fun p => p ∈ validPages)).length : ℚ)) / 4)) ∧
    getCompletionPercentage t ≤ 100 ∧
    getCompletionPercentage
      { emptyTracker with visitedPages := ["gallery", "wishes"] } = 50 ∧
    getCompletionPercentage
      { emptyTracker with
        visitedPages := ["gallery", "reasons", "wishes", "games"] } = 100 ∧
    getCompletionPercentage
      { emptyTracker with visitedPages := ["landing", "menu"] } = 0 := by
  have hn := filter_valid_length_le t h
  have heq : getCompletionPercentage t =
      25 * (t.visitedPages.filter (fun p => p ∈ validPages)).length := by
    simp only [getCompletionPercentage]
    omega
  refine ⟨heq, ?_, by omega, by decide, by decide, by decide⟩
  rw [heq]
  have hq : ((100 : ℚ) *
      ((t.visitedPages.filter (fun p => p ∈ validPages)).length : ℚ)) / 4 =
      ((25 * (t.visitedPages.filter (fun p => p ∈ validPages)).length : ℕ) : ℚ) := by
    push_cast
    ring
  rw [hq, round_natCast]

/-- Witness for C6 at a concrete input: a duplicate-free state that has
visited gallery and wishes scores 50 = 25 * 2. -/
theorem claim_C6_completion_percentage_witness :
    getCompletionPercentage
      { emptyTracker with visitedPages := ["gallery", "wishes"] } =
      25 * (({ emptyTracker with
               visitedPages := ["gallery", "wishes"] } :
             ProgressTracker).visitedPages.filter
              (fun p => p ∈ validPages)).length :=
  (claim_C6_completion_percentage
    { emptyTracker with visitedPages := ["gallery", "wishes"] } (by decide)).1

theorem requiredFor_pos (p : String) : 1 ≤ requiredFor p := by
  rcases hg : mapGet completionCriteria p with _ | v
  · simp [requiredFor, hg]
  · have hv : ∃ e, e ∈ completionCriteria ∧ e.2 = v := by
      unfold mapGet at hg
      rcases hf : List.find? (fun e => decide (e.1 = p)) completionCriteria
        with _ | e
      · rw [hf] at hg
        cases hg
      · rw [hf] at hg
        exact ⟨e, List.mem_of_find?_eq_some hf, by simpa using hg⟩
    obtain ⟨e, he, hev⟩ := hv
    have : requiredFor p = v := by simp [requiredFor, hg]
    rw [this, ← hev]
    fin_cases he <;> decide

/-- C7: `isPageCompleted` returns true exactly when the number of
interactions recorded for the section reaches the fixed per-section
threshold (gallery 2, reasons 3, wishes 1, games 1, unknown sections 1,
all thresholds at least 1); nothing recorded counts as 0, hence false.
For `reasons`, two distinct recorded ids yield false, a third distinct id
yields true, and re-recording an already-seen id changes neither the state
nor the result. -/
theorem claim_C7_completion_threshold (t : ProgressTracker) (pageId : String) :
    isPageCompleted t pageId =
      decide (requiredFor pageId ≤ countRecorded t pageId) ∧
    1 ≤ requiredFor pageId ∧
    requiredFor "gallery" = 2 ∧
    requiredFor "reasons" = 3 ∧
    requiredFor "wishes" = 1 ∧
    requiredFor "games" = 1 ∧
    (mapGet completionCriteria pageId = none → requiredFor pageId = 1) ∧
    (mapGet t.completedInteractions pageId = none →
       countRecorded t pageId = 0 ∧ isPageCompleted t pageId = false) ∧
    isPageCompleted reasonsAB "reasons" = false ∧
    isPageCompleted reasonsABC "reasons" = true ∧
    reasonsABCA = reasonsABC ∧
    isPageCompleted reasonsABCA "reasons" = true := by
  have hpos := requiredFor_pos pageId
  refine ⟨?_, hpos, by decide, by decide, by decide, by decide,
          ?_, ?_, by decide, by decide, by decide, by decide⟩
  · unfold isPageCompleted countRecorded requiredFor
    rcases hg : mapGet t.completedInteractions pageId with _ | v
    · simp only []
      have : ¬ ((mapGet completionCriteria pageId).getD 1 ≤ 0) := by
        have := requiredFor_pos pageId
        unfold requiredFor at this
        omega
      simp [this]
    · cases v with
      | set ms => simp
      | plain fs =>
          simp only []
          have : ¬ ((mapGet completionCriteria pageId).getD 1 ≤ 0) := by
            have := requiredFor_pos pageId
            unfold requiredFor at this
            omega
          simp [this]
  · intro hg
    simp [requiredFor, hg]
  · intro hg
    constructor
    · unfold countRecorded
      rw [hg]
    · unfold isPageCompleted
      rw [hg]

/-- Witness for C7 at a concrete input: in the two-distinct-interactions
state for `reasons` the completion flag agrees with the threshold
comparison (2 recorded < 3 required). -/
theorem claim_C7_completion_threshold_witness :
    isPageCompleted reasonsAB "reasons" =
      decide (requiredFor "reasons" ≤ countRecorded reasonsAB "reasons") ∧
    (countRecorded emptyTracker "reasons" = 0 ∧
     isPageCompleted emptyTracker "reasons" = false) :=
  ⟨(claim_C7_completion_threshold reasonsAB "reasons").1,
   (claim_C7_completion_threshold emptyTracker "reasons").2.2.2.2.2.2.2.1 rfl⟩

/-- C2: the persistence round trip fails on the code.  From a reachable
state with a member in every container, `saveProgress` serializes the
per-section interaction and collectible `Set`s as empty objects
(`JSON.stringify` of a JS `Set` keeps no members), so the reloaded state
has lost their members and holds plain objects instead of sets; the
top-level containers and the achievement records do survive.  A subsequent
`markInteractionComplete` on the reloaded state throws a `TypeError`. -/
theorem claim_C2_roundtrip_loses_sets :
    fullTracker.completedInteractions = [("reasons", SetVal.set ["r1"])] ∧
    fullTracker.collectibles = [("gallery", SetVal.set ["gem-1"])] ∧
    (saveProgress fullTracker "T1").completedInteractions = [("reasons", [])] ∧
    (saveProgress fullTracker "T1").collectibles = [("gallery", [])] ∧
    loadProgress (some (.ok (saveProgress fullTracker "T1"))) =
      .ok reloadedTracker ∧
    reloadedTracker.completedInteractions = [("reasons", SetVal.plain [])] ∧
    reloadedTracker.collectibles = [("gallery", SetVal.plain [])] ∧
    reloadedTracker ≠ fullTracker ∧
    countRecorded fullTracker "reasons" = 1 ∧
    countRecorded reloadedTracker "reasons" = 0 ∧
    markInteractionComplete reloadedTracker "reasons" "r2" = .error () ∧
    reloadedTracker.visitedPages = fullTracker.visitedPages ∧
    reloadedTracker.unlockedSecrets = fullTracker.unlockedSecrets ∧
    reloadedTracker.achievements = fullTracker.achievements := by
  refine ⟨by decide, by decide, by decide, by decide, rfl, by decide, by decide,
          by decide, by decide, by decide, rfl, by decide, by decide,
          by decide⟩

/-- C3 counterexample: a stored but unparseable snapshot does not produce a
fresh empty state — `JSON.parse` throws inside `loadProgress` and the
exception propagates; likewise a failing `localStorage.setItem` propagates
out of `saveProgress`. -/
theorem claim_C3_counterexample :
    loadProgress (some (.error ())) = .error () ∧
    loadProgress (some (.error ())) ≠ .ok emptyTracker ∧
    saveToStorage false emptyTracker "T" = .error () := by
  refine ⟨rfl, fun h => Except.noConfusion h, rfl⟩

/-- C3 as amended: only an absent snapshot yields the fresh empty state;
the store adapter contains no exception handling, so a parse failure on a
stored snapshot propagates to the caller, and a storage-write failure
propagates out of `save`, while a succeeding write stores the serialized
snapshot. -/
theorem claim_C3_amended (t : ProgressTracker) (now : String) (e : Unit) :
    loadProgress none = .ok emptyTracker ∧
    loadProgress (some (.error e)) = .error e ∧
    saveToStorage false t now = .error () ∧
    saveToStorage true t now = .ok (saveProgress t now) := by
  exact ⟨rfl, rfl, rfl, rfl⟩

/-- C8: within a session, progress is monotone — every sequence of mutation
calls only grows the tracker: `visitedPages`, `unlockedSecrets` and
`achievements` never lose entries (achievement records are never altered),
every recorded per-section interaction or collectible set keeps all its
members, and all cardinalities are non-decreasing.  Across a reload,
however, the per-section interaction sets lose their members (the
serialization bug of the save/load pair): `fullTracker` has one recorded
`reasons` interaction while its reloaded image has none. -/
theorem claim_C8_monotone_progress :
    (∀ (t : ProgressTracker) (ops : List Mutation),
       trackerLe t (applySeq t ops) ∧
       t.visitedPages.length ≤ (applySeq t ops).visitedPages.length ∧
       t.unlockedSecrets.length ≤ (applySeq t ops).unlockedSecrets.length ∧
       t.achievements.length ≤ (applySeq t ops).achievements.length ∧
       (∀ k r, mapGet t.achievements k = some r →
          mapGet (applySeq t ops).achievements k = some r) ∧
       (∀ p ms0, mapGet t.completedInteractions p = some (.set ms0) →
          ∃ ms1, mapGet (applySeq t ops).completedInteractions p =
                   some (.set ms1) ∧
                 List.Sublist ms0 ms1 ∧ ms0.length ≤ ms1.length) ∧
       (∀ p ms0, mapGet t.collectibles p = some (.set ms0) →
          ∃ ms1, mapGet (applySeq t ops).collectibles p = some (.set ms1) ∧
                 List.Sublist ms0 ms1 ∧ ms0.length ≤ ms1.length)) ∧
    countRecorded fullTracker "reasons" = 1 ∧
    countRecorded reloadedTracker "reasons" = 0 := by
  refine ⟨?_, by decide, by decide⟩
  intro t ops
  obtain ⟨hv, hi, _, hs, ha, hal, hc, _⟩ := trackerLe_applySeq ops t
  refine ⟨trackerLe_applySeq ops t, hv.length_le, hs.length_le, hal, ha, ?_, ?_⟩
  · intro p ms0 h
    obtain ⟨v', hv', hle⟩ := hi p (.set ms0) h
    cases v' with
    | set ms1 => exact ⟨ms1, hv', hle, List.Sublist.length_le hle⟩
    | plain fs => cases hle
  · intro p ms0 h
    obtain ⟨v', hv', hle⟩ := hc p (.set ms0) h
    cases v' with
    | set ms1 => exact ⟨ms1, hv', hle, List.Sublist.length_le hle⟩
    | plain fs => cases hle

end Birthday
